import Mathlib

/-!
Verification of the statement lifecycle (`src/statement/mod.rs`) of an
ODBC safety layer.  The native protocol (the ODBC driver reached through
`ffi::SQL*` calls) is embedded as an oracle supplying the return code,
the out-parameter value and the diagnostic chain for each successive
call; a log records every call issued together with its arguments.
Rust panics are embedded as the `panicked` alternative of `PanicOr`,
so an aborting path is distinguished from every recoverable result.
-/

namespace Odbc

/-! ### FFI constants (from the external `ffi` / odbc-sys collaborator) -/

/-- ODBC return code SQL_SUCCESS. -/
def SQL_SUCCESS : Int := 0

/-- ODBC return code SQL_SUCCESS_WITH_INFO. -/
def SQL_SUCCESS_WITH_INFO : Int := 1

/-- ODBC return code SQL_ERROR. -/
def SQL_ERROR : Int := -1

/-- ODBC return code SQL_NO_DATA. -/
def SQL_NO_DATA : Int := 100

/-- ODBC return code SQL_NEED_DATA. -/
def SQL_NEED_DATA : Int := 99

/-- Maximum value of `ffi::SQLINTEGER` (a 32-bit signed integer). -/
def SQLINTEGER_MAX : Nat := 2147483647

/-! ### Diagnostics and the protocol oracle -/

/-- One diagnostic record of the diagnostic chain of a handle:
state code, native error code and message text. -/
structure DiagRec where
  state : String
  nativeError : Int
  message : String
deriving DecidableEq, Repr

/-- A record of one raw protocol call, with the arguments the wrapper
passed to it.  `execDirect` records the text and the length argument;
`tables` records the four filter strings and their four length
arguments, exactly as handed to `SQLTables`. -/
inductive FfiCall where
  | execDirect (text : String) (length : Int)
  | fetch
  | numResultCols
  | tables (catalogName schemaName tableName tableType : String)
      (lenCatalog lenSchema lenTable lenTableType : Int)
  | closeCursor
deriving DecidableEq, Repr

/-- The state of the external driver, embedded as an oracle: `code n`
is the return code of the n-th raw call, `outVal n` the value travelling
through an out parameter of the n-th call, `diags n` the diagnostic
chain of the handle once n calls have been issued, and `log` the calls
issued so far. -/
structure Protocol where
  code : Nat → Int
  outVal : Nat → Int
  diags : Nat → List DiagRec
  log : List FfiCall

/-- Issue one raw protocol call: the oracle answers with the return
code and the out value for the current call index, and the call is
appended to the log. -/
def Protocol.issue (p : Protocol) (c : FfiCall) : (Int × Int) × Protocol :=
  ((p.code p.log.length, p.outVal p.log.length),
   { p with log := p.log ++ [c] })

/-- The diagnostic chain presently retrievable from the handle. -/
def Protocol.currentDiags (p : Protocol) : List DiagRec :=
  p.diags p.log.length

/-- The protocol state after appending one call to the log. -/
def Protocol.push (p : Protocol) (c : FfiCall) : Protocol :=
  { p with log := p.log ++ [c] }

/-! ### The `Return` tri-state outcome and the result adapter -/

/-- Tri-state outcome of a raw protocol call (`Return<T>` of the
repository): success, success with diagnostic information, or error. -/
inductive Return (α : Type) where
  | Success (a : α)
  | SuccessWithInfo (a : α)
  | Error
deriving DecidableEq, Repr

/-- A Rust computation that may abort: either a panic with its message,
or a normal value. -/
inductive PanicOr (α : Type) where
  | panicked (msg : String)
  | ok (a : α)
deriving DecidableEq, Repr

/-- True exactly on the aborting alternative. -/
def PanicOr.isPanic {α : Type} : PanicOr α → Bool
  | .panicked _ => true
  | .ok _ => false

/-- The recoverable error type of the statement layer: a documented
error outcome of a protocol call, carrying the diagnostic records read
from the handle.  No alternative of this type carries a statement. -/
inductive OdbcError where
  | ProtocolError (diags : List DiagRec)
deriving DecidableEq, Repr

/-- Modelled from the spec: the outcome-to-result adapter
(`Return::into_result`, declared outside the file under study) converts
the tri-state outcome into a standard result; a definite error becomes
a failure carrying the diagnostic records pulled from the owning
handle, while success and success-with-diagnostic-information both
become the same success, leaving the diagnostic chain on the handle
untouched and hence still queryable. -/
def Return.into_result {α : Type} (r : Return α) (diags : List DiagRec) :
    Except OdbcError α :=
  match r with
  | .Success a => .ok a
  | .SuccessWithInfo a => .ok a
  | .Error => .error (.ProtocolError diags)

/-! ### The raw handle wrapper (`Raii<ffi::Stmt>`) -/

/-- RAII wrapper of a native statement handle; the handle itself is an
opaque reference. -/
structure Raii where
  handle : Nat
deriving DecidableEq, Repr

/-- `Raii::num_result_cols`: issues `SQLNumResultCols`, reading the
column count through an out parameter; SQL_SUCCESS and
SQL_SUCCESS_WITH_INFO yield the count, SQL_ERROR yields the error
outcome, and every other return code aborts. -/
def Raii.num_result_cols (self : Raii) (p : Protocol) :
    PanicOr (Return Int × Protocol) :=
  let ((r, numCols), p1) := p.issue .numResultCols
  if r = SQL_SUCCESS then .ok (.Success numCols, p1)
  else if r = SQL_SUCCESS_WITH_INFO then .ok (.SuccessWithInfo numCols, p1)
  else if r = SQL_ERROR then .ok (.Error, p1)
  else .panicked "SQLNumResultCols returned unexpected result"

/-- `Raii::exec_direct`: aborts when the text length exceeds
`SQLINTEGER_MAX` before issuing any call; otherwise issues
`SQLExecDirect` with the text and its byte length.  SQL_SUCCESS and
SQL_SUCCESS_WITH_INFO yield `true` (rows may be available), SQL_NO_DATA
yields `Success false`, SQL_ERROR yields the error outcome,
SQL_NEED_DATA aborts, and every other return code aborts. -/
def Raii.exec_direct (self : Raii) (statement_text : String) (p : Protocol) :
    PanicOr (Return Bool × Protocol) :=
  let length := statement_text.utf8ByteSize
  if length > SQLINTEGER_MAX then
    .panicked "Statement text too long"
  else
    let ((r, _), p1) := p.issue (.execDirect statement_text (Int.ofNat length))
    if r = SQL_SUCCESS then .ok (.Success true, p1)
    else if r = SQL_SUCCESS_WITH_INFO then .ok (.SuccessWithInfo true, p1)
    else if r = SQL_ERROR then .ok (.Error, p1)
    else if r = SQL_NEED_DATA then .panicked "SQLExecDirec returned SQL_NEED_DATA"
    else if r = SQL_NO_DATA then .ok (.Success false, p1)
    else .panicked "SQLExecDirect returned unexpected result"

/-- `Raii::fetch`: issues `SQLFetch`; SQL_SUCCESS and
SQL_SUCCESS_WITH_INFO yield `true` (a row was fetched), SQL_NO_DATA
yields `Success false` (end of result set), SQL_ERROR yields the error
outcome, and every other return code aborts. -/
def Raii.fetch (self : Raii) (p : Protocol) : PanicOr (Return Bool × Protocol) :=
  let ((r, _), p1) := p.issue .fetch
  if r = SQL_SUCCESS then .ok (.Success true, p1)
  else if r = SQL_SUCCESS_WITH_INFO then .ok (.SuccessWithInfo true, p1)
  else if r = SQL_ERROR then .ok (.Error, p1)
  else if r = SQL_NO_DATA then .ok (.Success false, p1)
  else .panicked "SQLFetch returned unexpected result"

/-- `Raii::tables`: issues `SQLTables` with empty catalog, schema and
table-name filters and the table-type filter "TABLE", each passed with
its byte length; SQL_SUCCESS and SQL_SUCCESS_WITH_INFO succeed,
SQL_ERROR yields the error outcome, and every other return code
aborts. -/
def Raii.tables (self : Raii) (p : Protocol) : PanicOr (Return Unit × Protocol) :=
  let catalog_name := ""
  let schema_name := ""
  let table_name := ""
  let table_type := "TABLE"
  let ((r, _), p1) := p.issue (.tables catalog_name schema_name table_name table_type
    (Int.ofNat catalog_name.utf8ByteSize) (Int.ofNat schema_name.utf8ByteSize)
    (Int.ofNat table_name.utf8ByteSize) (Int.ofNat table_type.utf8ByteSize))
  if r = SQL_SUCCESS then .ok (.Success (), p1)
  else if r = SQL_SUCCESS_WITH_INFO then .ok (.SuccessWithInfo (), p1)
  else if r = SQL_ERROR then .ok (.Error, p1)
  else .panicked "SQLTables returned unexpected result"

/-- `Raii::close_cursor`: issues `SQLCloseCursor`; SQL_SUCCESS and
SQL_SUCCESS_WITH_INFO succeed, SQL_ERROR yields the error outcome, and
every other return code aborts. -/
def Raii.close_cursor (self : Raii) (p : Protocol) : PanicOr (Return Unit × Protocol) :=
  let ((r, _), p1) := p.issue .closeCursor
  if r = SQL_SUCCESS then .ok (.Success (), p1)
  else if r = SQL_SUCCESS_WITH_INFO then .ok (.SuccessWithInfo (), p1)
  else if r = SQL_ERROR then .ok (.Error, p1)
  else .panicked "unexpected return value from SQLCloseCursor"

/-! ### The phase-typed statement -/

/-- Phase marker: freshly allocated, no open result set. -/
inductive Allocated : Type

/-- Phase marker: a query was submitted and a result set cursor is open. -/
inductive HasResult : Type

/-- Phase marker of a statement that produced no result set; in the
source this is a type alias of `Allocated`. -/
def NoResult : Type := Allocated

/-- The phase-typed statement value: wraps one raw handle, with the
phase carried as a phantom type parameter. -/
structure Statement (S : Type) where
  raii : Raii

/-- `Statement::with_raii`: wrap a raw handle in a statement of the
wanted phase. -/
def Statement.with_raii {S : Type} (raii : Raii) : Statement S :=
  { raii := raii }

/-- Outcome of submitting a query: either a statement with a result
set, or a statement with none. -/
inductive Executed where
  | Data (s : Statement HasResult)
  | NoData (s : Statement NoResult)

/-- Cursor over the current row of a result set: borrows the statement
and owns a 512-byte scratch buffer, zero-initialised. -/
structure Cursor where
  stmt : Statement HasResult
  buffer : List Nat

/-- `Statement::<Allocated>::tables`: runs the raw tables call and, on
a successful outcome, rewraps the handle in the `HasResult` phase; an
error outcome is surfaced through the result adapter with the current
diagnostics, and the consumed statement is not handed back (the error
alternative carries only diagnostics).  The driver state is threaded
alongside, since the external world persists either way. -/
def Statement.tables (self : Statement Allocated) (p : Protocol) :
    PanicOr (Except OdbcError (Statement HasResult) × Protocol) :=
  match Raii.tables self.raii p with
  | .panicked m => .panicked m
  | .ok (r, p1) =>
    match r.into_result p1.currentDiags with
    | .error e => .ok (.error e, p1)
    | .ok _ => .ok (.ok (Statement.with_raii self.raii), p1)

/-- `Statement::<Allocated>::exec_direct`: runs the raw direct
execution; `true` rewraps the handle as `Executed::Data` in the
`HasResult` phase, `false` as `Executed::NoData` in the `NoResult`
phase; an error outcome is surfaced through the result adapter and the
consumed statement is not handed back. -/
def Statement.exec_direct (self : Statement Allocated) (statement_text : String)
    (p : Protocol) : PanicOr (Except OdbcError Executed × Protocol) :=
  match Raii.exec_direct self.raii statement_text p with
  | .panicked m => .panicked m
  | .ok (r, p1) =>
    match r.into_result p1.currentDiags with
    | .error e => .ok (.error e, p1)
    | .ok true => .ok (.ok (.Data (Statement.with_raii self.raii)), p1)
    | .ok false => .ok (.ok (.NoData (Statement.with_raii self.raii)), p1)

/-- `Statement::<HasResult>::num_result_cols`: the column count of the
open result set, through the result adapter. -/
def Statement.num_result_cols (self : Statement HasResult) (p : Protocol) :
    PanicOr (Except OdbcError Int × Protocol) :=
  match Raii.num_result_cols self.raii p with
  | .panicked m => .panicked m
  | .ok (r, p1) =>
    match r.into_result p1.currentDiags with
    | .error e => .ok (.error e, p1)
    | .ok n => .ok (.ok n, p1)

/-- `Statement::<HasResult>::fetch`: advances to the next row; `true`
yields a cursor over the borrowed statement with a fresh zeroed
buffer, `false` yields `none` (end of result set); an error outcome is
surfaced through the result adapter. -/
def Statement.fetch (self : Statement HasResult) (p : Protocol) :
    PanicOr (Except OdbcError (Option Cursor) × Protocol) :=
  match Raii.fetch self.raii p with
  | .panicked m => .panicked m
  | .ok (r, p1) =>
    match r.into_result p1.currentDiags with
    | .error e => .ok (.error e, p1)
    | .ok true => .ok (.ok (some { stmt := self, buffer := List.replicate 512 0 }), p1)
    | .ok false => .ok (.ok none, p1)

/-- `Statement::<HasResult>::close_cursor`: releases the open result
set and rewraps the handle in the `NoResult` (= `Allocated`) phase; an
error outcome is surfaced through the result adapter, and the consumed
statement is not handed back. -/
def Statement.close_cursor (self : Statement HasResult) (p : Protocol) :
    PanicOr (Except OdbcError (Statement NoResult) × Protocol) :=
  match Raii.close_cursor self.raii p with
  | .panicked m => .panicked m
  | .ok (r, p1) =>
    match r.into_result p1.currentDiags with
    | .error e => .ok (.error e, p1)
    | .ok _ => .ok (.ok (Statement.with_raii self.raii), p1)

/-! ### Composite scenarios -/

/-- Repeated fetching: run `fetch` the given number of times, recording
for each successful call whether a cursor (`true`) or the end of the
result set (`false`) was produced; `none` when any call fails or
aborts. -/
def fetchFlags (self : Statement HasResult) : Protocol → Nat → Option (List Bool)
  | _, 0 => some []
  | p, n + 1 =>
    match Statement.fetch self p with
    | .ok (.ok c, p1) => (fetchFlags self p1 n).map (fun l => c.isSome :: l)
    | _ => none

/-- The round trip of the spec: close the open cursor, then submit a
new query on the returned statement.  The composition is well typed
because `close_cursor` returns a statement in the `NoResult`
(= `Allocated`) phase, which is the phase `exec_direct` requires. -/
def closeThenExec (self : Statement HasResult) (statement_text : String)
    (p : Protocol) : PanicOr (Except OdbcError Executed × Protocol) :=
  match Statement.close_cursor self p with
  | .panicked m => .panicked m
  | .ok (.error e, p1) => .ok (.error e, p1)
  | .ok (.ok s1, p1) => Statement.exec_direct s1 statement_text p1

/-! ### The lifecycle state machine as a trace model

The phase-typed API of the source makes illegal call sequences
untypeable.  To reason about reachable call sequences, the phases and
the per-phase operation sets of the two impl blocks are reflected into
a deep trace model: `avail` records which methods each impl block
declares, `Step` records the phase transition each method performs
(read off its signature), and `Legal` closes `Step` under
sequencing. -/

/-- The two distinct statement phases of the source (`NoResult` being
an alias of `Allocated`). -/
inductive Phase where
  | Allocated
  | HasResult
deriving DecidableEq, Repr

/-- The five statement operations declared by the two impl blocks. -/
inductive Op where
  | execDirect
  | tables
  | numResultCols
  | fetch
  | closeCursor
deriving DecidableEq, Repr

/-- Which operations are defined on which phase, read off the impl
blocks: `impl Statement<Allocated>` declares `tables` and
`exec_direct`; `impl Statement<HasResult>` declares `num_result_cols`,
`fetch` and `close_cursor`. -/
def avail : Phase → Op → Bool
  | .Allocated, .execDirect => true
  | .Allocated, .tables => true
  | .HasResult, .numResultCols => true
  | .HasResult, .fetch => true
  | .HasResult, .closeCursor => true
  | _, _ => false

/-- One successful operation and its phase transition, read off the
method signatures: `exec_direct` consumes `Allocated` and returns
`Data` (`HasResult`) or `NoData` (`NoResult = Allocated`), `tables`
consumes `Allocated` and returns `HasResult`, `num_result_cols` and
`fetch` borrow a `HasResult` statement, and `close_cursor` consumes
`HasResult` and returns `NoResult = Allocated`. -/
inductive Step : Phase → Op → Phase → Prop where
  | execData : Step .Allocated .execDirect .HasResult
  | execNoData : Step .Allocated .execDirect .Allocated
  | tables : Step .Allocated .tables .HasResult
  | numResultCols : Step .HasResult .numResultCols .HasResult
  | fetch : Step .HasResult .fetch .HasResult
  | closeCursor : Step .HasResult .closeCursor .Allocated

/-- A call sequence legal for the phase-typed API, from a starting
phase to a final phase. -/
inductive Legal : Phase → List Op → Phase → Prop where
  | nil (ph : Phase) : Legal ph [] ph
  | cons {ph ph1 ph2 : Phase} {o : Op} {ops : List Op} :
      Step ph o ph1 → Legal ph1 ops ph2 → Legal ph (o :: ops) ph2

/-! ### Concrete fixtures -/

/-- A concrete raw handle. -/
def raii0 : Raii := { handle := 0 }

/-- A concrete statement in the `Allocated` phase. -/
def stmtA : Statement Allocated := Statement.with_raii raii0

/-- A concrete statement in the `HasResult` phase. -/
def stmtH : Statement HasResult := Statement.with_raii raii0

/-- A driver double answering every call with the given return code,
with zero out-values, an empty diagnostic chain and an empty log. -/
def protoWith (c : Int) : Protocol :=
  { code := fun _ => c
    outVal := fun _ => 0
    diags := fun _ => []
    log := [] }

/-- A driver double for a result set of exactly three rows: the first
three calls answer SQL_SUCCESS, every later call SQL_NO_DATA. -/
def threeRowProto : Protocol :=
  { code := fun n => if n < 3 then SQL_SUCCESS else SQL_NO_DATA
    outVal := fun _ => 0
    diags := fun _ => []
    log := [] }

/-- Doubling a string, used to build a text over the length bound. -/
def strDouble (s : String) : String := s ++ s

/-- A concrete query text of exactly 2^31 bytes, one more than
`SQLINTEGER_MAX`. -/
def bigString : String := strDouble^[31] "a"

/-- The call record `Raii::exec_direct` hands to `SQLExecDirect`: the
text and its byte length. -/
def execCall (text : String) : FfiCall :=
  .execDirect text (Int.ofNat text.utf8ByteSize)

/-- The call record `Raii::tables` hands to `SQLTables`: empty catalog,
schema and table-name filters, table-type filter "TABLE", each with its
byte length. -/
def tablesCall : FfiCall :=
  .tables "" "" "" "TABLE" (Int.ofNat "".utf8ByteSize) (Int.ofNat "".utf8ByteSize)
    (Int.ofNat "".utf8ByteSize) (Int.ofNat "TABLE".utf8ByteSize)

/-- The cursor `fetch` builds over the borrowed statement: a fresh
512-byte zeroed scratch buffer. -/
def freshCursor (self : Statement HasResult) : Cursor :=
  { stmt := self, buffer := List.replicate 512 0 }



set_option maxRecDepth 8000

/-! ### Characterization lemmas for the operations -/

/-- Pushing a call leaves the code oracle unchanged. -/
theorem push_code (p : Protocol) (c : FfiCall) : (p.push c).code = p.code := rfl

/-- Pushing a call leaves the diagnostic oracle unchanged. -/
theorem push_diags (p : Protocol) (c : FfiCall) : (p.push c).diags = p.diags := rfl

/-- Pushing a call grows the log by one. -/
theorem push_log_length (p : Protocol) (c : FfiCall) :
    (p.push c).log.length = p.log.length + 1 := by
  simp [Protocol.push]

/-- `exec_direct` under a successful code: the `Data` outcome. -/
theorem stmt_exec_ok (self : Statement Allocated) (text : String) (p : Protocol)
    (hlen : text.utf8ByteSize ≤ SQLINTEGER_MAX)
    (h : p.code p.log.length = SQL_SUCCESS ∨ p.code p.log.length = SQL_SUCCESS_WITH_INFO) :
    Statement.exec_direct self text p =
      .ok (.ok (.Data (Statement.with_raii self.raii)), p.push (execCall text)) := by
  rcases h with h | h <;>
    simp [Statement.exec_direct, Raii.exec_direct, Protocol.issue, Protocol.push, execCall,
      Return.into_result, h, SQL_SUCCESS, SQL_SUCCESS_WITH_INFO, Nat.not_lt.mpr hlen]

/-- `exec_direct` under SQL_NO_DATA: the `NoData` outcome. -/
theorem stmt_exec_noData (self : Statement Allocated) (text : String) (p : Protocol)
    (hlen : text.utf8ByteSize ≤ SQLINTEGER_MAX)
    (h : p.code p.log.length = SQL_NO_DATA) :
    Statement.exec_direct self text p =
      .ok (.ok (.NoData (Statement.with_raii self.raii)), p.push (execCall text)) := by
  simp [Statement.exec_direct, Raii.exec_direct, Protocol.issue, Protocol.push, execCall,
    Return.into_result, h, SQL_SUCCESS, SQL_SUCCESS_WITH_INFO, SQL_ERROR, SQL_NEED_DATA,
    SQL_NO_DATA, Nat.not_lt.mpr hlen]

/-- `exec_direct` under SQL_ERROR: a recoverable protocol error. -/
theorem stmt_exec_error (self : Statement Allocated) (text : String) (p : Protocol)
    (hlen : text.utf8ByteSize ≤ SQLINTEGER_MAX)
    (h : p.code p.log.length = SQL_ERROR) :
    Statement.exec_direct self text p =
      .ok (.error (.ProtocolError (p.diags (p.log.length + 1))), p.push (execCall text)) := by
  simp [Statement.exec_direct, Raii.exec_direct, Protocol.issue, Protocol.push, execCall,
    Return.into_result, Protocol.currentDiags, h, SQL_SUCCESS, SQL_SUCCESS_WITH_INFO,
    SQL_ERROR, Nat.not_lt.mpr hlen]

/-- `exec_direct` under SQL_NEED_DATA: an abort. -/
theorem stmt_exec_needData (self : Statement Allocated) (text : String) (p : Protocol)
    (hlen : text.utf8ByteSize ≤ SQLINTEGER_MAX)
    (h : p.code p.log.length = SQL_NEED_DATA) :
    Statement.exec_direct self text p = .panicked "SQLExecDirec returned SQL_NEED_DATA" := by
  simp [Statement.exec_direct, Raii.exec_direct, Protocol.issue, Return.into_result, h,
    SQL_SUCCESS, SQL_SUCCESS_WITH_INFO, SQL_ERROR, SQL_NEED_DATA, Nat.not_lt.mpr hlen]

/-- `Raii::exec_direct` under an undocumented code: an abort. -/
theorem raii_exec_undoc (self : Raii) (text : String) (p : Protocol)
    (h0 : p.code p.log.length ≠ SQL_SUCCESS)
    (h1 : p.code p.log.length ≠ SQL_SUCCESS_WITH_INFO)
    (h2 : p.code p.log.length ≠ SQL_ERROR)
    (h3 : p.code p.log.length ≠ SQL_NO_DATA) :
    (Raii.exec_direct self text p).isPanic = true := by
  by_cases hlen : text.utf8ByteSize > SQLINTEGER_MAX
  · simp [Raii.exec_direct, hlen, PanicOr.isPanic]
  · by_cases h99 : p.code p.log.length = SQL_NEED_DATA
    · simp [Raii.exec_direct, Protocol.issue, hlen, h0, h1, h2, h99, PanicOr.isPanic,
        SQL_SUCCESS, SQL_SUCCESS_WITH_INFO, SQL_ERROR, SQL_NEED_DATA]
    · simp [Raii.exec_direct, Protocol.issue, hlen, h0, h1, h2, h3, h99, PanicOr.isPanic]

/-- `Statement::exec_direct` under an undocumented code: an abort. -/
theorem stmt_exec_undoc (self : Statement Allocated) (text : String) (p : Protocol)
    (h0 : p.code p.log.length ≠ SQL_SUCCESS)
    (h1 : p.code p.log.length ≠ SQL_SUCCESS_WITH_INFO)
    (h2 : p.code p.log.length ≠ SQL_ERROR)
    (h3 : p.code p.log.length ≠ SQL_NO_DATA) :
    (Statement.exec_direct self text p).isPanic = true := by
  have h := raii_exec_undoc self.raii text p h0 h1 h2 h3
  unfold Statement.exec_direct
  cases hr : Raii.exec_direct self.raii text p with
  | panicked m => simp [PanicOr.isPanic]
  | ok a => rw [hr] at h; simp [PanicOr.isPanic] at h

/-- `fetch` under a successful code: a fresh cursor. -/
theorem stmt_fetch_ok (self : Statement HasResult) (p : Protocol)
    (h : p.code p.log.length = SQL_SUCCESS ∨ p.code p.log.length = SQL_SUCCESS_WITH_INFO) :
    Statement.fetch self p = .ok (.ok (some (freshCursor self)), p.push .fetch) := by
  rcases h with h | h <;>
    simp [Statement.fetch, Raii.fetch, Protocol.issue, Protocol.push, freshCursor,
      Return.into_result, h, SQL_SUCCESS, SQL_SUCCESS_WITH_INFO]

/-- `fetch` under SQL_NO_DATA: the end of the result set, not an error. -/
theorem stmt_fetch_none (self : Statement HasResult) (p : Protocol)
    (h : p.code p.log.length = SQL_NO_DATA) :
    Statement.fetch self p = .ok (.ok none, p.push .fetch) := by
  simp [Statement.fetch, Raii.fetch, Protocol.issue, Protocol.push, Return.into_result, h,
    SQL_SUCCESS, SQL_SUCCESS_WITH_INFO, SQL_ERROR, SQL_NO_DATA]

/-- `fetch` under SQL_ERROR: a recoverable protocol error. -/
theorem stmt_fetch_error (self : Statement HasResult) (p : Protocol)
    (h : p.code p.log.length = SQL_ERROR) :
    Statement.fetch self p =
      .ok (.error (.ProtocolError (p.diags (p.log.length + 1))), p.push .fetch) := by
  simp [Statement.fetch, Raii.fetch, Protocol.issue, Protocol.push, Return.into_result,
    Protocol.currentDiags, h, SQL_SUCCESS, SQL_SUCCESS_WITH_INFO, SQL_ERROR]

/-- `Raii::fetch` under an undocumented code: an abort. -/
theorem raii_fetch_undoc (self : Raii) (p : Protocol)
    (h0 : p.code p.log.length ≠ SQL_SUCCESS)
    (h1 : p.code p.log.length ≠ SQL_SUCCESS_WITH_INFO)
    (h2 : p.code p.log.length ≠ SQL_ERROR)
    (h3 : p.code p.log.length ≠ SQL_NO_DATA) :
    Raii.fetch self p = .panicked "SQLFetch returned unexpected result" := by
  simp [Raii.fetch, Protocol.issue, h0, h1, h2, h3]

/-- `Statement::fetch` under an undocumented code: an abort. -/
theorem stmt_fetch_undoc (self : Statement HasResult) (p : Protocol)
    (h0 : p.code p.log.length ≠ SQL_SUCCESS)
    (h1 : p.code p.log.length ≠ SQL_SUCCESS_WITH_INFO)
    (h2 : p.code p.log.length ≠ SQL_ERROR)
    (h3 : p.code p.log.length ≠ SQL_NO_DATA) :
    (Statement.fetch self p).isPanic = true := by
  simp [Statement.fetch, raii_fetch_undoc self.raii p h0 h1 h2 h3, PanicOr.isPanic]

/-- `tables` under a successful code: the `HasResult` statement. -/
theorem stmt_tables_ok (self : Statement Allocated) (p : Protocol)
    (h : p.code p.log.length = SQL_SUCCESS ∨ p.code p.log.length = SQL_SUCCESS_WITH_INFO) :
    Statement.tables self p =
      .ok (.ok (Statement.with_raii self.raii), p.push tablesCall) := by
  rcases h with h | h <;>
    simp [Statement.tables, Raii.tables, Protocol.issue, Protocol.push, tablesCall,
      Return.into_result, h, SQL_SUCCESS, SQL_SUCCESS_WITH_INFO]

/-- `tables` under SQL_ERROR: a recoverable protocol error. -/
theorem stmt_tables_error (self : Statement Allocated) (p : Protocol)
    (h : p.code p.log.length = SQL_ERROR) :
    Statement.tables self p =
      .ok (.error (.ProtocolError (p.diags (p.log.length + 1))), p.push tablesCall) := by
  simp [Statement.tables, Raii.tables, Protocol.issue, Protocol.push, tablesCall,
    Return.into_result, Protocol.currentDiags, h, SQL_SUCCESS, SQL_SUCCESS_WITH_INFO, SQL_ERROR]

/-- `Raii::tables` under an undocumented code: an abort. -/
theorem raii_tables_undoc (self : Raii) (p : Protocol)
    (h0 : p.code p.log.length ≠ SQL_SUCCESS)
    (h1 : p.code p.log.length ≠ SQL_SUCCESS_WITH_INFO)
    (h2 : p.code p.log.length ≠ SQL_ERROR) :
    Raii.tables self p = .panicked "SQLTables returned unexpected result" := by
  simp [Raii.tables, Protocol.issue, h0, h1, h2]

/-- `close_cursor` under a successful code: back to `NoResult`. -/
theorem stmt_close_ok (self : Statement HasResult) (p : Protocol)
    (h : p.code p.log.length = SQL_SUCCESS ∨ p.code p.log.length = SQL_SUCCESS_WITH_INFO) :
    Statement.close_cursor self p =
      .ok (.ok (Statement.with_raii self.raii), p.push .closeCursor) := by
  rcases h with h | h <;>
    simp [Statement.close_cursor, Raii.close_cursor, Protocol.issue, Protocol.push,
      Return.into_result, h, SQL_SUCCESS, SQL_SUCCESS_WITH_INFO]

/-- `close_cursor` under SQL_ERROR: a recoverable protocol error. -/
theorem stmt_close_error (self : Statement HasResult) (p : Protocol)
    (h : p.code p.log.length = SQL_ERROR) :
    Statement.close_cursor self p =
      .ok (.error (.ProtocolError (p.diags (p.log.length + 1))), p.push .closeCursor) := by
  simp [Statement.close_cursor, Raii.close_cursor, Protocol.issue, Protocol.push,
    Return.into_result, Protocol.currentDiags, h, SQL_SUCCESS, SQL_SUCCESS_WITH_INFO, SQL_ERROR]

/-- `Raii::close_cursor` under an undocumented code: an abort. -/
theorem raii_close_undoc (self : Raii) (p : Protocol)
    (h0 : p.code p.log.length ≠ SQL_SUCCESS)
    (h1 : p.code p.log.length ≠ SQL_SUCCESS_WITH_INFO)
    (h2 : p.code p.log.length ≠ SQL_ERROR) :
    Raii.close_cursor self p = .panicked "unexpected return value from SQLCloseCursor" := by
  simp [Raii.close_cursor, Protocol.issue, h0, h1, h2]

/-- `num_result_cols` under a successful code: the driver-written count. -/
theorem stmt_cols_ok (self : Statement HasResult) (p : Protocol)
    (h : p.code p.log.length = SQL_SUCCESS ∨ p.code p.log.length = SQL_SUCCESS_WITH_INFO) :
    Statement.num_result_cols self p =
      .ok (.ok (p.outVal p.log.length), p.push .numResultCols) := by
  rcases h with h | h <;>
    simp [Statement.num_result_cols, Raii.num_result_cols, Protocol.issue, Protocol.push,
      Return.into_result, h, SQL_SUCCESS, SQL_SUCCESS_WITH_INFO]

/-- `num_result_cols` under SQL_ERROR: a recoverable protocol error. -/
theorem stmt_cols_error (self : Statement HasResult) (p : Protocol)
    (h : p.code p.log.length = SQL_ERROR) :
    Statement.num_result_cols self p =
      .ok (.error (.ProtocolError (p.diags (p.log.length + 1))), p.push .numResultCols) := by
  simp [Statement.num_result_cols, Raii.num_result_cols, Protocol.issue, Protocol.push,
    Return.into_result, Protocol.currentDiags, h, SQL_SUCCESS, SQL_SUCCESS_WITH_INFO, SQL_ERROR]

/-- `Raii::num_result_cols` under an undocumented code: an abort. -/
theorem raii_cols_undoc (self : Raii) (p : Protocol)
    (h0 : p.code p.log.length ≠ SQL_SUCCESS)
    (h1 : p.code p.log.length ≠ SQL_SUCCESS_WITH_INFO)
    (h2 : p.code p.log.length ≠ SQL_ERROR) :
    Raii.num_result_cols self p = .panicked "SQLNumResultCols returned unexpected result" := by
  simp [Raii.num_result_cols, Protocol.issue, h0, h1, h2]





/-! ### Trace lemmas -/

/-- A legal trace over an append splits at the join. -/
theorem legal_append_split (l1 : List Op) :
    ∀ (ph ph2 : Phase) (l2 : List Op), Legal ph (l1 ++ l2) ph2 →
      ∃ phm, Legal ph l1 phm ∧ Legal phm l2 ph2 := by
  induction l1 with
  | nil =>
    intro ph ph2 l2 h
    exact ⟨ph, Legal.nil ph, h⟩
  | cons o t ih =>
    intro ph ph2 l2 h
    cases h with
    | cons hs hl =>
      obtain ⟨phm, h1, h2⟩ := ih _ _ _ hl
      exact ⟨phm, Legal.cons hs h1, h2⟩

/-- Any legal trace from `Allocated` into `HasResult` contains an
execution or a tables call. -/
theorem legal_reach_hasResult (l : List Op) :
    ∀ ph : Phase, Legal ph l Phase.HasResult → ph = Phase.Allocated →
      ∃ o, o ∈ l ∧ (o = Op.execDirect ∨ o = Op.tables) := by
  induction l with
  | nil =>
    intro ph h hA
    cases h
    exact absurd hA (by decide)
  | cons o t ih =>
    intro ph h hA
    subst hA
    cases h with
    | cons hs hl =>
      cases hs with
      | execData => exact ⟨Op.execDirect, List.mem_cons_self _ _, Or.inl rfl⟩
      | execNoData =>
        obtain ⟨o1, hm, ho⟩ := ih _ hl rfl
        exact ⟨o1, List.mem_cons_of_mem _ hm, ho⟩
      | tables => exact ⟨Op.tables, List.mem_cons_self _ _, Or.inr rfl⟩

/-! ### Length of the doubled string -/

/-- Doubling a string doubles its byte length. -/
theorem strDouble_utf8ByteSize (s : String) :
    (strDouble s).utf8ByteSize = 2 * s.utf8ByteSize := by
  cases s with
  | mk cs =>
    show (String.mk (cs ++ cs)).utf8ByteSize = 2 * (String.mk cs).utf8ByteSize
    simp [String.utf8ByteSize_mk, String.utf8Len_append]
    omega

/-- Iterated doubling of a one-byte string has byte length a power of
two. -/
theorem iterate_strDouble_utf8ByteSize (n : Nat) :
    (strDouble^[n] "a").utf8ByteSize = 2 ^ n := by
  induction n with
  | zero => rfl
  | succ n ih =>
    rw [Function.iterate_succ_apply', strDouble_utf8ByteSize, ih, pow_succ]
    omega

/-- The byte length of `bigString` is exactly 2^31. -/
theorem bigString_utf8ByteSize : bigString.utf8ByteSize = 2147483648 := by
  have h := iterate_strDouble_utf8ByteSize 31
  rw [show (2 : Nat) ^ 31 = 2147483648 by norm_num] at h
  exact h

/-! ### The claims -/

/-- C1: the statement lifecycle is a phase-disjoint state machine.  On
`Allocated` exactly `exec_direct` and `tables` are available (`fetch`
and `num_result_cols` are not); on `HasResult` exactly
`num_result_cols`, `fetch` and `close_cursor` are available; every
transition uses an available operation; in every legal call sequence
from `Allocated`, any `fetch` is preceded by an `exec_direct` or a
`tables`; an execution never runs from the `HasResult` phase (so no new
query while a cursor is open); and the only operation bringing a
`HasResult` statement back to `Allocated` is `close_cursor`. -/
theorem lifecycle_phase_disjoint :
    (∀ o : Op, avail Phase.Allocated o = true ↔ o = Op.execDirect ∨ o = Op.tables) ∧
    (∀ o : Op, avail Phase.HasResult o = true ↔
       o = Op.numResultCols ∨ o = Op.fetch ∨ o = Op.closeCursor) ∧
    (∀ (ph : Phase) (o : Op) (ph1 : Phase), Step ph o ph1 → avail ph o = true) ∧
    (∀ (pre post : List Op) (ph2 : Phase),
       Legal Phase.Allocated (pre ++ Op.fetch :: post) ph2 →
       ∃ o, o ∈ pre ∧ (o = Op.execDirect ∨ o = Op.tables)) ∧
    (∀ (ph : Phase) (o : Op) (ph1 : Phase), Step ph o ph1 →
       (o = Op.execDirect ∨ o = Op.tables) → ph = Phase.Allocated) ∧
    (∀ (o : Op) (ph1 : Phase), Step Phase.HasResult o ph1 →
       ph1 = Phase.Allocated → o = Op.closeCursor) := by
  refine ⟨?_, ?_, ?_, ?_, ?_, ?_⟩
  · intro o; cases o <;> simp [avail]
  · intro o; cases o <;> simp [avail]
  · intro ph o ph1 hs; cases hs <;> rfl
  · intro pre post ph2 h
    obtain ⟨phm, h1, h2⟩ := legal_append_split pre _ _ _ h
    cases h2 with
    | cons hs hl =>
      cases hs
      exact legal_reach_hasResult pre _ h1 rfl
  · intro ph o ph1 hs ho
    cases hs <;> simp_all
  · intro o ph1 hs h1
    cases hs <;> simp_all

/-- Witness for C1: `exec_direct` is available on an `Allocated`
statement, via the transition it performs. -/
theorem lifecycle_phase_disjoint_witness :
    avail Phase.Allocated Op.execDirect = true :=
  lifecycle_phase_disjoint.2.2.1 Phase.Allocated Op.execDirect Phase.HasResult Step.execData

/-- C5: a query text longer than `SQLINTEGER_MAX` bytes makes
`exec_direct` abort with the length panic, independently of the driver
(so before any protocol call, and never as a recoverable error); a text
within the bound never triggers the length panic, and for every
documented return code the `SQLExecDirect` call is issued with the text
and its byte length appended to the call log. -/
theorem exec_direct_length_guard :
    (∀ (self : Raii) (text : String) (p : Protocol),
       text.utf8ByteSize > SQLINTEGER_MAX →
       Raii.exec_direct self text p = .panicked "Statement text too long" ∧
       (∀ q : Protocol, Raii.exec_direct self text q = Raii.exec_direct self text p)) ∧
    (∀ (self : Raii) (text : String) (p : Protocol),
       text.utf8ByteSize ≤ SQLINTEGER_MAX →
       Raii.exec_direct self text p ≠ .panicked "Statement text too long" ∧
       ((p.code p.log.length = SQL_SUCCESS ∨ p.code p.log.length = SQL_SUCCESS_WITH_INFO ∨
         p.code p.log.length = SQL_ERROR ∨ p.code p.log.length = SQL_NO_DATA) →
        ∃ r : Return Bool,
          Raii.exec_direct self text p = .ok (r, p.push (execCall text)))) := by
  constructor
  · intro self text p hlen
    constructor
    · simp [Raii.exec_direct, hlen]
    · intro q
      simp [Raii.exec_direct, hlen]
  · intro self text p hlen
    have hND : p.code p.log.length = SQL_NEED_DATA →
        Raii.exec_direct self text p = .panicked "SQLExecDirec returned SQL_NEED_DATA" := by
      intro h
      simp [Raii.exec_direct, Protocol.issue, h, SQL_SUCCESS, SQL_SUCCESS_WITH_INFO, SQL_ERROR,
        SQL_NEED_DATA, Nat.not_lt.mpr hlen]
    have hUndoc : p.code p.log.length ≠ SQL_SUCCESS → p.code p.log.length ≠ SQL_SUCCESS_WITH_INFO →
        p.code p.log.length ≠ SQL_ERROR → p.code p.log.length ≠ SQL_NEED_DATA →
        p.code p.log.length ≠ SQL_NO_DATA →
        Raii.exec_direct self text p = .panicked "SQLExecDirect returned unexpected result" := by
      intro h0 h1 h2 h3 h4
      simp [Raii.exec_direct, Protocol.issue, h0, h1, h2, h3, h4, Nat.not_lt.mpr hlen]
    have hDoc : (p.code p.log.length = SQL_SUCCESS ∨ p.code p.log.length = SQL_SUCCESS_WITH_INFO ∨
        p.code p.log.length = SQL_ERROR ∨ p.code p.log.length = SQL_NO_DATA) →
        ∃ r : Return Bool,
          Raii.exec_direct self text p = .ok (r, p.push (execCall text)) := by
      intro hc
      rcases hc with h | h | h | h
      · exact ⟨.Success true, by
          simp [Raii.exec_direct, Protocol.issue, Protocol.push, execCall, h, SQL_SUCCESS,
            Nat.not_lt.mpr hlen]⟩
      · exact ⟨.SuccessWithInfo true, by
          simp [Raii.exec_direct, Protocol.issue, Protocol.push, execCall, h, SQL_SUCCESS,
            SQL_SUCCESS_WITH_INFO, Nat.not_lt.mpr hlen]⟩
      · exact ⟨.Error, by
          simp [Raii.exec_direct, Protocol.issue, Protocol.push, execCall, h, SQL_SUCCESS,
            SQL_SUCCESS_WITH_INFO, SQL_ERROR, Nat.not_lt.mpr hlen]⟩
      · exact ⟨.Success false, by
          simp [Raii.exec_direct, Protocol.issue, Protocol.push, execCall, h, SQL_SUCCESS,
            SQL_SUCCESS_WITH_INFO, SQL_ERROR, SQL_NEED_DATA, SQL_NO_DATA,
            Nat.not_lt.mpr hlen]⟩
    refine ⟨?_, hDoc⟩
    by_cases h0 : p.code p.log.length = SQL_SUCCESS
    · obtain ⟨r, hr⟩ := hDoc (Or.inl h0); rw [hr]; simp
    · by_cases h1 : p.code p.log.length = SQL_SUCCESS_WITH_INFO
      · obtain ⟨r, hr⟩ := hDoc (Or.inr (Or.inl h1)); rw [hr]; simp
      · by_cases h2 : p.code p.log.length = SQL_ERROR
        · obtain ⟨r, hr⟩ := hDoc (Or.inr (Or.inr (Or.inl h2))); rw [hr]; simp
        · by_cases h3 : p.code p.log.length = SQL_NO_DATA
          · obtain ⟨r, hr⟩ := hDoc (Or.inr (Or.inr (Or.inr h3))); rw [hr]; simp
          · by_cases h4 : p.code p.log.length = SQL_NEED_DATA
            · rw [hND h4]
              simp
            · rw [hUndoc h0 h1 h2 h4 h3]
              simp

/-- Witness for C5: a concrete 2^31-byte text aborts with the length
panic. -/
theorem exec_direct_length_guard_witness :
    Raii.exec_direct raii0 bigString (protoWith SQL_SUCCESS) =
      .panicked "Statement text too long" :=
  (exec_direct_length_guard.1 raii0 bigString (protoWith SQL_SUCCESS)
    (by rw [bigString_utf8ByteSize]; norm_num [SQLINTEGER_MAX])).1

/-- C9: a SQL_NEED_DATA return code from the direct-execution call
makes `exec_direct` abort, at the raw layer and at the statement layer,
rather than return an `Executed` value or a recoverable error. -/
theorem exec_direct_need_data_aborts :
    ∀ (self : Statement Allocated) (text : String) (p : Protocol),
      text.utf8ByteSize ≤ SQLINTEGER_MAX →
      p.code p.log.length = SQL_NEED_DATA →
      Statement.exec_direct self text p = .panicked "SQLExecDirec returned SQL_NEED_DATA" ∧
      Raii.exec_direct self.raii text p = .panicked "SQLExecDirec returned SQL_NEED_DATA" := by
  intro self text p hlen h
  have hr : Raii.exec_direct self.raii text p =
      .panicked "SQLExecDirec returned SQL_NEED_DATA" := by
    simp [Raii.exec_direct, Protocol.issue, h, SQL_SUCCESS, SQL_SUCCESS_WITH_INFO, SQL_ERROR,
      SQL_NEED_DATA, Nat.not_lt.mpr hlen]
  refine ⟨?_, hr⟩
  simp [Statement.exec_direct, hr]

/-- Witness for C9 at a concrete driver double answering
SQL_NEED_DATA. -/
theorem exec_direct_need_data_aborts_witness :
    Statement.exec_direct stmtA "SELECT 1" (protoWith SQL_NEED_DATA) =
      .panicked "SQLExecDirec returned SQL_NEED_DATA" :=
  (exec_direct_need_data_aborts stmtA "SELECT 1" (protoWith SQL_NEED_DATA)
    (by decide) (by decide)).1





/-- C2: for an `Allocated` statement and a query text within the
length bound, `exec_direct` yields `Ok (Data s)` with `s` in the
`HasResult` phase on SQL_SUCCESS or SQL_SUCCESS_WITH_INFO, `Ok
(NoData s)` with `s` in the `NoResult` phase on SQL_NO_DATA, and a
recoverable `ProtocolError` exactly on SQL_ERROR. -/
theorem exec_direct_outcomes :
    ∀ (self : Statement Allocated) (text : String) (p : Protocol),
      text.utf8ByteSize ≤ SQLINTEGER_MAX →
      ((p.code p.log.length = SQL_SUCCESS ∨ p.code p.log.length = SQL_SUCCESS_WITH_INFO) →
         Statement.exec_direct self text p =
           .ok (.ok (.Data (Statement.with_raii self.raii)), p.push (execCall text))) ∧
      (p.code p.log.length = SQL_NO_DATA →
         Statement.exec_direct self text p =
           .ok (.ok (.NoData (Statement.with_raii self.raii)), p.push (execCall text))) ∧
      (p.code p.log.length = SQL_ERROR →
         Statement.exec_direct self text p =
           .ok (.error (.ProtocolError (p.diags (p.log.length + 1))), p.push (execCall text))) ∧
      (∀ (e : OdbcError) (q : Protocol),
         Statement.exec_direct self text p = .ok (.error e, q) →
         p.code p.log.length = SQL_ERROR) := by
  intro self text p hlen
  refine ⟨stmt_exec_ok self text p hlen, stmt_exec_noData self text p hlen,
    stmt_exec_error self text p hlen, ?_⟩
  intro e q heq
  by_cases h0 : p.code p.log.length = SQL_SUCCESS
  · rw [stmt_exec_ok self text p hlen (Or.inl h0)] at heq; simp at heq
  by_cases h1 : p.code p.log.length = SQL_SUCCESS_WITH_INFO
  · rw [stmt_exec_ok self text p hlen (Or.inr h1)] at heq; simp at heq
  by_cases h2 : p.code p.log.length = SQL_ERROR
  · exact h2
  by_cases h3 : p.code p.log.length = SQL_NO_DATA
  · rw [stmt_exec_noData self text p hlen h3] at heq; simp at heq
  have hp := stmt_exec_undoc self text p h0 h1 h2 h3
  rw [heq] at hp
  simp [PanicOr.isPanic] at hp

/-- Witness for C2: a concrete `SELECT` under a driver double
answering SQL_SUCCESS yields the `Data` outcome. -/
theorem exec_direct_outcomes_witness :
    Statement.exec_direct stmtA "SELECT 1" (protoWith SQL_SUCCESS) =
      .ok (.ok (.Data (Statement.with_raii stmtA.raii)),
        (protoWith SQL_SUCCESS).push (execCall "SELECT 1")) :=
  (exec_direct_outcomes stmtA "SELECT 1" (protoWith SQL_SUCCESS) (by decide)).1
    (Or.inl rfl)

/-- C3: `fetch` returns `Ok none` exactly on SQL_NO_DATA (end of the
result set), `Ok (some cursor)` on SQL_SUCCESS or
SQL_SUCCESS_WITH_INFO, and a recoverable error exactly on SQL_ERROR —
in both directions: SQL_ERROR yields the failure, and any recoverable
failure implies the code was SQL_ERROR; and against a driver double
producing exactly three rows, four successive fetches yield some,
some, some, none. -/
theorem fetch_outcomes :
    (∀ (self : Statement HasResult) (p : Protocol),
       (p.code p.log.length = SQL_NO_DATA →
          Statement.fetch self p = .ok (.ok none, p.push .fetch)) ∧
       ((p.code p.log.length = SQL_SUCCESS ∨ p.code p.log.length = SQL_SUCCESS_WITH_INFO) →
          Statement.fetch self p = .ok (.ok (some (freshCursor self)), p.push .fetch)) ∧
       (p.code p.log.length = SQL_ERROR →
          Statement.fetch self p =
            .ok (.error (.ProtocolError (p.diags (p.log.length + 1))), p.push .fetch)) ∧
       (∀ (c : Option Cursor) (q : Protocol),
          Statement.fetch self p = .ok (.ok c, q) →
          (c = none ↔ p.code p.log.length = SQL_NO_DATA)) ∧
       (∀ (e : OdbcError) (q : Protocol),
          Statement.fetch self p = .ok (.error e, q) →
          p.code p.log.length = SQL_ERROR)) ∧
    fetchFlags stmtH threeRowProto 4 = some [true, true, true, false] := by
  constructor
  · intro self p
    refine ⟨stmt_fetch_none self p, stmt_fetch_ok self p, stmt_fetch_error self p, ?_, ?_⟩
    swap
    · intro e q heq
      by_cases h0 : p.code p.log.length = SQL_SUCCESS
      · rw [stmt_fetch_ok self p (Or.inl h0)] at heq; simp at heq
      by_cases h1 : p.code p.log.length = SQL_SUCCESS_WITH_INFO
      · rw [stmt_fetch_ok self p (Or.inr h1)] at heq; simp at heq
      by_cases h2 : p.code p.log.length = SQL_ERROR
      · exact h2
      by_cases h3 : p.code p.log.length = SQL_NO_DATA
      · rw [stmt_fetch_none self p h3] at heq; simp at heq
      have hp := stmt_fetch_undoc self p h0 h1 h2 h3
      rw [heq] at hp
      simp [PanicOr.isPanic] at hp
    intro c q heq
    by_cases h0 : p.code p.log.length = SQL_SUCCESS
    · rw [stmt_fetch_ok self p (Or.inl h0)] at heq
      simp at heq
      simp [← heq.1, h0, SQL_SUCCESS, SQL_NO_DATA]
    by_cases h1 : p.code p.log.length = SQL_SUCCESS_WITH_INFO
    · rw [stmt_fetch_ok self p (Or.inr h1)] at heq
      simp at heq
      simp [← heq.1, h1, SQL_SUCCESS_WITH_INFO, SQL_NO_DATA]
    by_cases h2 : p.code p.log.length = SQL_ERROR
    · rw [stmt_fetch_error self p h2] at heq; simp at heq
    by_cases h3 : p.code p.log.length = SQL_NO_DATA
    · rw [stmt_fetch_none self p h3] at heq
      simp at heq
      simp [← heq.1, h3]
    have hp := stmt_fetch_undoc self p h0 h1 h2 h3
    rw [heq] at hp
    simp [PanicOr.isPanic] at hp
  · decide

/-- Witness for C3: the general part applied to the three-row double,
on its first (successful) fetch. -/
theorem fetch_outcomes_witness :
    Statement.fetch stmtH threeRowProto =
      .ok (.ok (some (freshCursor stmtH)), threeRowProto.push .fetch) :=
  (fetch_outcomes.1 stmtH threeRowProto).2.1 (Or.inl rfl)

/-- C4: a successful `close_cursor` on a `HasResult` statement yields
the same handle rewrapped in the `NoResult` (= `Allocated`) phase, and
the returned value accepts a subsequent `exec_direct` (the composition
`closeThenExec` is well typed); when the second protocol call succeeds
the second execution succeeds, with `Data` or `NoData` according to its
return code. -/
theorem close_cursor_roundtrip :
    ∀ (self : Statement HasResult) (text : String) (p : Protocol),
      (p.code p.log.length = SQL_SUCCESS ∨ p.code p.log.length = SQL_SUCCESS_WITH_INFO) →
      Statement.close_cursor self p =
        .ok (.ok (Statement.with_raii self.raii), p.push .closeCursor) ∧
      (text.utf8ByteSize ≤ SQLINTEGER_MAX →
        ((p.code (p.log.length + 1) = SQL_SUCCESS ∨
          p.code (p.log.length + 1) = SQL_SUCCESS_WITH_INFO) →
           closeThenExec self text p =
             .ok (.ok (.Data (Statement.with_raii self.raii)),
               (p.push .closeCursor).push (execCall text))) ∧
        (p.code (p.log.length + 1) = SQL_NO_DATA →
           closeThenExec self text p =
             .ok (.ok (.NoData (Statement.with_raii self.raii)),
               (p.push .closeCursor).push (execCall text)))) := by
  intro self text p h
  have hclose := stmt_close_ok self p h
  refine ⟨hclose, ?_⟩
  intro hlen
  have hq : ((p.push FfiCall.closeCursor).code (p.push FfiCall.closeCursor).log.length) =
      p.code (p.log.length + 1) := by
    rw [push_code, push_log_length]
  constructor
  · intro h2
    unfold closeThenExec
    rw [hclose]
    exact stmt_exec_ok (Statement.with_raii self.raii) text (p.push .closeCursor) hlen
      (by rw [hq]; exact h2)
  · intro h2
    unfold closeThenExec
    rw [hclose]
    exact stmt_exec_noData (Statement.with_raii self.raii) text (p.push .closeCursor) hlen
      (by rw [hq]; exact h2)

/-- Witness for C4: close then execute under an all-success driver
double. -/
theorem close_cursor_roundtrip_witness :
    closeThenExec stmtH "SELECT 1" (protoWith SQL_SUCCESS) =
      .ok (.ok (.Data (Statement.with_raii stmtH.raii)),
        ((protoWith SQL_SUCCESS).push .closeCursor).push (execCall "SELECT 1")) :=
  ((close_cursor_roundtrip stmtH "SELECT 1" (protoWith SQL_SUCCESS) (Or.inl rfl)).2
    (by decide)).1 (Or.inl rfl)

/-- C6: for each raw operation, every return code outside its
documented set aborts; and a documented SQL_ERROR is surfaced at the
statement layer as a recoverable `ProtocolError` carrying the
diagnostics of the handle, never an abort. -/
theorem undocumented_code_aborts :
    ∀ p : Protocol,
      ((p.code p.log.length ≠ SQL_SUCCESS ∧ p.code p.log.length ≠ SQL_SUCCESS_WITH_INFO ∧
        p.code p.log.length ≠ SQL_ERROR) →
        (∀ self : Raii, (Raii.num_result_cols self p).isPanic = true) ∧
        (∀ self : Raii, (Raii.tables self p).isPanic = true) ∧
        (∀ self : Raii, (Raii.close_cursor self p).isPanic = true)) ∧
      ((p.code p.log.length ≠ SQL_SUCCESS ∧ p.code p.log.length ≠ SQL_SUCCESS_WITH_INFO ∧
        p.code p.log.length ≠ SQL_ERROR ∧ p.code p.log.length ≠ SQL_NO_DATA) →
        (∀ self : Raii, (Raii.fetch self p).isPanic = true) ∧
        (∀ (self : Raii) (text : String), (Raii.exec_direct self text p).isPanic = true)) ∧
      (p.code p.log.length = SQL_ERROR →
        (∀ self : Statement HasResult, Statement.num_result_cols self p =
           .ok (.error (.ProtocolError (p.diags (p.log.length + 1))), p.push .numResultCols)) ∧
        (∀ self : Statement HasResult, Statement.fetch self p =
           .ok (.error (.ProtocolError (p.diags (p.log.length + 1))), p.push .fetch)) ∧
        (∀ self : Statement Allocated, Statement.tables self p =
           .ok (.error (.ProtocolError (p.diags (p.log.length + 1))), p.push tablesCall)) ∧
        (∀ self : Statement HasResult, Statement.close_cursor self p =
           .ok (.error (.ProtocolError (p.diags (p.log.length + 1))), p.push .closeCursor)) ∧
        (∀ (self : Statement Allocated) (text : String), text.utf8ByteSize ≤ SQLINTEGER_MAX →
           Statement.exec_direct self text p =
             .ok (.error (.ProtocolError (p.diags (p.log.length + 1))),
               p.push (execCall text)))) := by
  intro p
  refine ⟨?_, ?_, ?_⟩
  · rintro ⟨h0, h1, h2⟩
    exact ⟨fun self => by simp [raii_cols_undoc self p h0 h1 h2, PanicOr.isPanic],
      fun self => by simp [raii_tables_undoc self p h0 h1 h2, PanicOr.isPanic],
      fun self => by simp [raii_close_undoc self p h0 h1 h2, PanicOr.isPanic]⟩
  · rintro ⟨h0, h1, h2, h3⟩
    exact ⟨fun self => by simp [raii_fetch_undoc self p h0 h1 h2 h3, PanicOr.isPanic],
      fun self text => raii_exec_undoc self text p h0 h1 h2 h3⟩
  · intro h
    exact ⟨fun self => stmt_cols_error self p h, fun self => stmt_fetch_error self p h,
      fun self => stmt_tables_error self p h, fun self => stmt_close_error self p h,
      fun self text hlen => stmt_exec_error self text p hlen h⟩

/-- Witness for C6: the undocumented code 55 aborts `SQLFetch`, and
SQL_ERROR surfaces as a recoverable error there. -/
theorem undocumented_code_aborts_witness :
    (Raii.fetch raii0 (protoWith 55)).isPanic = true ∧
    Statement.fetch stmtH (protoWith SQL_ERROR) =
      .ok (.error (.ProtocolError []), (protoWith SQL_ERROR).push .fetch) := by
  constructor
  · exact ((undocumented_code_aborts (protoWith 55)).2.1 (by decide)).1 raii0
  · exact ((undocumented_code_aborts (protoWith SQL_ERROR)).2.2 rfl).2.1 stmtH

/-- C7: a SQL_SUCCESS_WITH_INFO outcome yields, for every operation,
the same successful result value as plain SQL_SUCCESS (the hypothesis
covers both codes and the right-hand sides are independent of which
one occurred), and the diagnostic chain mapping of the handle is
unchanged by the call, so diagnostics remain retrievable. -/
theorem success_with_info_is_success :
    ∀ p : Protocol,
      (p.code p.log.length = SQL_SUCCESS ∨ p.code p.log.length = SQL_SUCCESS_WITH_INFO) →
      (∀ (self : Statement Allocated) (text : String), text.utf8ByteSize ≤ SQLINTEGER_MAX →
         Statement.exec_direct self text p =
           .ok (.ok (.Data (Statement.with_raii self.raii)), p.push (execCall text))) ∧
      (∀ self : Statement HasResult,
         Statement.fetch self p = .ok (.ok (some (freshCursor self)), p.push .fetch)) ∧
      (∀ self : Statement HasResult,
         Statement.num_result_cols self p =
           .ok (.ok (p.outVal p.log.length), p.push .numResultCols)) ∧
      (∀ self : Statement Allocated,
         Statement.tables self p = .ok (.ok (Statement.with_raii self.raii), p.push tablesCall)) ∧
      (∀ self : Statement HasResult,
         Statement.close_cursor self p =
           .ok (.ok (Statement.with_raii self.raii), p.push .closeCursor)) ∧
      (∀ c : FfiCall, (p.push c).diags = p.diags ∧
         (p.push c).currentDiags = p.diags (p.log.length + 1)) := by
  intro p h
  refine ⟨fun self text hlen => stmt_exec_ok self text p hlen h,
    fun self => stmt_fetch_ok self p h,
    fun self => stmt_cols_ok self p h,
    fun self => stmt_tables_ok self p h,
    fun self => stmt_close_ok self p h,
    fun c => ⟨push_diags p c, ?_⟩⟩
  rw [Protocol.currentDiags, push_diags, push_log_length]

/-- Witness for C7: a driver double answering SQL_SUCCESS_WITH_INFO
still yields a cursor from `fetch`. -/
theorem success_with_info_is_success_witness :
    Statement.fetch stmtH (protoWith SQL_SUCCESS_WITH_INFO) =
      .ok (.ok (some (freshCursor stmtH)), (protoWith SQL_SUCCESS_WITH_INFO).push .fetch) :=
  ((success_with_info_is_success (protoWith SQL_SUCCESS_WITH_INFO) (Or.inr rfl)).2.1) stmtH

/-- C8: `tables` is a fixed, parameterless invocation: the call it
issues carries empty catalog, schema and table-name filters, each of
length 0, and the table-type filter exactly "TABLE" of length 5; on a
successful code the `Allocated` statement transitions to the
`HasResult` phase, and SQL_ERROR surfaces as a recoverable error while
still issuing the same fixed call. -/
theorem tables_fixed_invocation :
    tablesCall = FfiCall.tables "" "" "" "TABLE" 0 0 0 5 ∧
    ∀ (self : Statement Allocated) (p : Protocol),
      ((p.code p.log.length = SQL_SUCCESS ∨ p.code p.log.length = SQL_SUCCESS_WITH_INFO) →
         Statement.tables self p =
           .ok (.ok (Statement.with_raii self.raii), p.push tablesCall)) ∧
      (p.code p.log.length = SQL_ERROR →
         Statement.tables self p =
           .ok (.error (.ProtocolError (p.diags (p.log.length + 1))), p.push tablesCall)) := by
  refine ⟨by decide, ?_⟩
  intro self p
  exact ⟨stmt_tables_ok self p, stmt_tables_error self p⟩

/-- Witness for C8: the fixed invocation under an all-success driver
double. -/
theorem tables_fixed_invocation_witness :
    Statement.tables stmtA (protoWith SQL_SUCCESS) =
      .ok (.ok (Statement.with_raii stmtA.raii), (protoWith SQL_SUCCESS).push tablesCall) :=
  (tables_fixed_invocation.2 stmtA (protoWith SQL_SUCCESS)).1 (Or.inl rfl)

/-- C10: when a phase-transition operation (`tables`, `exec_direct`,
`close_cursor`) hits a protocol error, the returned failure carries
only diagnostic records and no statement — indeed every inhabitant of
the error type is a bare `ProtocolError` — so the consumed statement
value cannot be retried; the consuming signatures take the statement by
value. -/
theorem transition_error_consumes :
    ∀ p : Protocol, p.code p.log.length = SQL_ERROR →
      (∀ self : Statement Allocated,
         Statement.tables self p =
           .ok (.error (.ProtocolError (p.diags (p.log.length + 1))), p.push tablesCall)) ∧
      (∀ (self : Statement Allocated) (text : String), text.utf8ByteSize ≤ SQLINTEGER_MAX →
         Statement.exec_direct self text p =
           .ok (.error (.ProtocolError (p.diags (p.log.length + 1))), p.push (execCall text))) ∧
      (∀ self : Statement HasResult,
         Statement.close_cursor self p =
           .ok (.error (.ProtocolError (p.diags (p.log.length + 1))), p.push .closeCursor)) ∧
      (∀ e : OdbcError, ∃ ds : List DiagRec, e = .ProtocolError ds) := by
  intro p h
  refine ⟨fun self => stmt_tables_error self p h,
    fun self text hlen => stmt_exec_error self text p hlen h,
    fun self => stmt_close_error self p h, ?_⟩
  intro e
  cases e with
  | ProtocolError ds => exact ⟨ds, rfl⟩

/-- Witness for C10: a failing `close_cursor` returns only the
diagnostics. -/
theorem transition_error_consumes_witness :
    Statement.close_cursor stmtH (protoWith SQL_ERROR) =
      .ok (.error (.ProtocolError []), (protoWith SQL_ERROR).push .closeCursor) :=
  ((transition_error_consumes (protoWith SQL_ERROR) rfl).2.2.1) stmtH


end Odbc
